import Mathlib

/-!
Shallow embedding of the form-management web application (`src/app.js`,
`src/models/User` = `src/unnamed/part_000`): data model, request handlers
and the dashboard aggregations, with theorems checking the specification's
claims against them.

Conventions of the embedding:
* JavaScript `Date` values are modelled at day granularity by a civil
  calendar date `CivilDate` together with, where the time of day matters,
  an explicit millisecond offset into the day; `civilToDays` is the
  proleptic-Gregorian day number (days since the Unix epoch), matching
  `Date.UTC` arithmetic.
* Machine numbers are `Int`/`Nat`/`ℚ`; millisecond arithmetic is exact
  integer arithmetic (`365.25` days = `31557600000` ms exactly).
* The record store is a `List UserRecord`; `save` / `findByIdAndUpdate`
  are explicit state-passing functions; fallible paths return `Except`.
-/

/-- A calendar date (proleptic Gregorian), `m` is 1-based. -/
structure CivilDate where
  y : Int
  m : Int
  d : Int
deriving Repr, DecidableEq

/-- Gregorian leap-year rule (as used by JavaScript `Date`). -/
def isLeap (y : Int) : Bool :=
  (y % 4 == 0 && y % 100 != 0) || y % 400 == 0

/-- Number of days in month `m` of year `y`. -/
def daysInMonth (y m : Int) : Int :=
  if m == 2 then (if isLeap y then 29 else 28)
  else if m == 4 || m == 6 || m == 9 || m == 11 then 30
  else 31

/-- `dt` denotes an actual calendar date. -/
def validDate (dt : CivilDate) : Prop :=
  1 ≤ dt.m ∧ dt.m ≤ 12 ∧ 1 ≤ dt.d ∧ dt.d ≤ daysInMonth dt.y dt.m

instance (dt : CivilDate) : Decidable (validDate dt) := by
  unfold validDate; infer_instance

/-- Day number of a civil date, with day 0 = 1970-01-01 (the Unix epoch).
This is the standard days-from-civil computation over floored division,
the arithmetic JavaScript `Date.UTC` performs. -/
def civilToDays (dt : CivilDate) : Int :=
  let yy : Int := if dt.m ≤ 2 then dt.y - 1 else dt.y
  let mp : Int := if dt.m ≤ 2 then dt.m + 9 else dt.m - 3
  let doy : Int := (153 * mp + 2) / 5 + dt.d - 1
  365 * yy + yy / 4 - yy / 100 + yy / 400 + doy - 719468

/-- Milliseconds since the epoch of the midnight (UTC) starting a date. -/
def msOfDate (dt : CivilDate) : Int :=
  86400000 * civilToDays dt

/-- The dashboard's age formula (`src/app.js` lines 494-508):
`floor((todayMs - dobMs) / (1000*60*60*24*365.25))`; the divisor is exactly
31557600000 ms, so over integer milliseconds the floor is `Int.ediv`. -/
def ageAtMs (todayMs dobMs : Int) : Int :=
  (todayMs - dobMs) / 31557600000

/-- One bucket of the dashboard's `$bucket` stage with boundaries
`[0, 18, 30, 45, 60, 120]` and default bucket `"Other"`. Each non-default
constructor is named after its lower boundary. -/
inductive AgeBucket where
  | b0 | b18 | b30 | b45 | b60 | other
deriving Repr, DecidableEq, BEq

/-- Which bucket of `[0, 18, 30, 45, 60, 120]` (default `"Other"`) an age
falls into, following MongoDB `$bucket` semantics: bucket `[lo, hi)` for
`lo ≤ age < hi`, default otherwise (`src/app.js` lines 509-516). -/
def bucketOf (a : Int) : AgeBucket :=
  if a < 0 then .other
  else if a < 18 then .b0
  else if a < 30 then .b18
  else if a < 45 then .b30
  else if a < 60 then .b45
  else if a < 120 then .b60
  else .other

lemma bucketOf_eq_b0 (a : Int) (h0 : 0 ≤ a) (h1 : a < 18) : bucketOf a = .b0 := by
  unfold bucketOf
  rw [if_neg (by omega), if_pos h1]

lemma bucketOf_eq_b18 (a : Int) (h0 : 18 ≤ a) (h1 : a < 30) : bucketOf a = .b18 := by
  unfold bucketOf
  rw [if_neg (by omega), if_neg (by omega), if_pos h1]

lemma civilToDays_sub_17 (y m d : Int) :
    6205 ≤ civilToDays ⟨y, m, d⟩ - civilToDays ⟨y - 17, m, d⟩ ∧
      civilToDays ⟨y, m, d⟩ - civilToDays ⟨y - 17, m, d⟩ ≤ 6211 := by
  simp only [civilToDays]
  rcases le_or_lt m 2 with hm | hm
  · simp only [if_pos hm]; omega
  · simp only [if_neg (not_le.mpr hm)]; omega

lemma civilToDays_sub_18 (y m d : Int) :
    6573 ≤ civilToDays ⟨y, m, d⟩ - civilToDays ⟨y - 18, m, d⟩ ∧
      civilToDays ⟨y, m, d⟩ - civilToDays ⟨y - 18, m, d⟩ ≤ 6576 := by
  simp only [civilToDays]
  rcases le_or_lt m 2 with hm | hm
  · simp only [if_pos hm]; omega
  · simp only [if_neg (not_le.mpr hm)]; omega


/-- Claim C4, counterexample: at today = 2026-10-12 (midnight UTC) a record
with `dob` exactly 18 years before today (2008-10-12) spans only 6574 days
(4 leap days), so `floor(6574 / 365.25) = 17` and the record is counted in
the `[0,18)` bucket, not in `[18,30)` as the claim states. -/
theorem C4_counterexample :
    validDate ⟨2026, 10, 12⟩ ∧ validDate ⟨2008, 10, 12⟩ ∧ (2008 : Int) = 2026 - 18 ∧
      bucketOf (ageAtMs (msOfDate ⟨2026, 10, 12⟩) (msOfDate ⟨2008, 10, 12⟩)) ≠ .b18 ∧
      bucketOf (ageAtMs (msOfDate ⟨2026, 10, 12⟩) (msOfDate ⟨2008, 10, 12⟩)) = .b0 := by
  refine ⟨by decide, by decide, by decide, by decide, by decide⟩

/-- Claim C4 (amended): under the dashboard's age formula, every record whose
`dob` is exactly 17 years before today's date is counted in the `[0,18)`
bucket (as claimed); but a record whose `dob` is exactly 18 years before
today's date is counted in `[18,30)` if and only if the elapsed time
`today - dob` is at least 6574.5 days (= 568036800000 ms, i.e. the 18-year
span contains at least 5 leap days, or 4 leap days and the dashboard is
computed at or after noon UTC); otherwise it is counted in `[0,18)`.
`t` is the time of day (in ms) at which the dashboard query runs. -/
theorem C4_age_bucket_17_and_18 :
    (∀ (y m d t : Int), validDate ⟨y, m, d⟩ → validDate ⟨y - 17, m, d⟩ →
      0 ≤ t → t < 86400000 →
      bucketOf (ageAtMs (msOfDate ⟨y, m, d⟩ + t) (msOfDate ⟨y - 17, m, d⟩)) = .b0) ∧
    (∀ (y m d t : Int), validDate ⟨y, m, d⟩ → validDate ⟨y - 18, m, d⟩ →
      0 ≤ t → t < 86400000 →
      (bucketOf (ageAtMs (msOfDate ⟨y, m, d⟩ + t) (msOfDate ⟨y - 18, m, d⟩)) = .b18 ↔
        568036800000 ≤ msOfDate ⟨y, m, d⟩ + t - msOfDate ⟨y - 18, m, d⟩)) := by
  constructor
  · intro y m d t _ _ ht0 ht1
    obtain ⟨hlo, hhi⟩ := civilToDays_sub_17 y m d
    refine bucketOf_eq_b0 _ ?_ ?_ <;> simp only [ageAtMs, msOfDate] <;> omega
  · intro y m d t _ _ ht0 ht1
    obtain ⟨hlo, hhi⟩ := civilToDays_sub_18 y m d
    by_cases h18 : 568036800000 ≤ msOfDate ⟨y, m, d⟩ + t - msOfDate ⟨y - 18, m, d⟩
    · rw [bucketOf_eq_b18]
      · simp only [h18, iff_true]
      · simp only [ageAtMs, msOfDate] at h18 ⊢; omega
      · simp only [ageAtMs, msOfDate] at h18 ⊢; omega
    · rw [bucketOf_eq_b0]
      · simp only [h18, iff_false]
        intro hcon
        exact absurd hcon (by decide)
      · simp only [ageAtMs, msOfDate] at h18 ⊢; omega
      · simp only [ageAtMs, msOfDate] at h18 ⊢; omega

/-- Concrete instance of `C4_age_bucket_17_and_18`: a record born 2009-10-12
viewed on 2026-10-12 at midnight is counted in the `[0,18)` bucket. -/
theorem C4_age_bucket_witness :
    bucketOf (ageAtMs (msOfDate ⟨2026, 10, 12⟩ + 0) (msOfDate ⟨2026 - 17, 10, 12⟩)) = .b0 :=
  C4_age_bucket_17_and_18.1 2026 10 12 0 (by decide) (by decide) (by decide) (by decide)

/-- Longest leading run of decimal digits of a character list, as digit
values, together with the remaining characters. -/
def takeDigits : List Char → List Nat × List Char
  | [] => ([], [])
  | c :: t =>
    if c.isDigit then
      let p := takeDigits t
      ((c.toNat - 48) :: p.1, p.2)
    else ([], c :: t)

/-- Value of a digit-value list read most-significant first. -/
def digitsVal (l : List Nat) : Nat :=
  l.foldl (fun a d => 10 * a + d) 0

/-- `String.prototype.toLowerCase` (all strings involved are ASCII).
Defined over the character list so that concrete values reduce in the
kernel (the core `String.toLower` loops by well-founded recursion). -/
def jsLower (s : String) : String :=
  ⟨s.data.map Char.toLower⟩

/-- Strip leading and trailing whitespace from a character list. -/
def trimList (l : List Char) : List Char :=
  ((l.dropWhile Char.isWhitespace).reverse.dropWhile Char.isWhitespace).reverse

/-- `String.prototype.trim` / the express-validator and mongoose `trim`
sanitizers, via `trimList` for kernel reducibility. -/
def jsTrim (s : String) : String :=
  ⟨trimList s.data⟩

/-- Split a character list at every occurrence of `sep` (like
`String.splitOn` for a one-character separator, but structural). -/
def splitOnChar (sep : Char) : List Char → List (List Char)
  | [] => [[]]
  | c :: t =>
    let r := splitOnChar sep t
    if c == sep then [] :: r
    else
      match r with
      | [] => [[c]]
      | h :: t2 => (c :: h) :: t2

/-- Decimal parse of a whole character list: `some` exactly when the list
is nonempty and all digits. -/
def parseNatList (l : List Char) : Option Nat :=
  if !l.isEmpty && l.all Char.isDigit then
    some (digitsVal (l.map (fun c => c.toNat - 48)))
  else none

/-- Model of JavaScript `parseFloat` for plain decimal literals (an optional
sign, digits, an optional decimal point and fraction digits; any trailing
garbage is ignored, exactly as `parseFloat` ignores it). `none` models `NaN`
(no digits could be consumed). Exponents, `Infinity` and leading whitespace
are outside the model; the service's quality scores are plain decimals.
The numeric value is exact (`ℚ`) rather than an IEEE double. -/
def jsParseFloat (s : String) : Option ℚ :=
  let cs := s.data
  let signed : Bool × List Char :=
    match cs with
    | '-' :: t => (true, t)
    | '+' :: t => (false, t)
    | _ => (false, cs)
  let ip := takeDigits signed.2
  let fp : List Nat :=
    match ip.2 with
    | '.' :: t => (takeDigits t).1
    | _ => []
  if ip.1 = [] ∧ fp = [] then none
  else
    let v : ℚ := (digitsVal ip.1 : ℚ) + (digitsVal fp : ℚ) / (10 : ℚ) ^ fp.length
    some (if signed.1 then -v else v)

/-- `parseFloat(q) > 0.7` from `src/app.js` line 96; `NaN > 0.7` is `false`
in JavaScript, hence the `none` case. -/
def scoreAbove (q : String) : Bool :=
  match jsParseFloat q with
  | none => false
  | some v => decide ((7 : ℚ) / 10 < v)

/-- The fields of the external deliverability service's JSON body that
`validateEmail` inspects; `none` models an absent or non-string field. -/
structure ApiData where
  deliverability : Option String
  quality_score : Option String
deriving Repr, DecidableEq

/-- Outcome of the outbound `axios.get` call in `validateEmail`:
`err` models a thrown transport/HTTP error (with the derived error detail),
`ok none` a 2xx response whose body is not an object (falsy `data`), and
`ok (some d)` a 2xx response with a JSON object body. -/
inductive ApiOutcome where
  | err (msg : String)
  | ok (data : Option ApiData)
deriving Repr, DecidableEq

/-- The `{isValid, message}` object `validateEmail` resolves with. -/
structure EmailCheck where
  isValid : Bool
  message : String
deriving Repr, DecidableEq

/-- `validateEmail` (`src/app.js` lines 88-108): on a well-formed response
(object body whose `deliverability` and `quality_score` are strings),
classifies valid exactly when `deliverability === "DELIVERABLE"` and
`parseFloat(quality_score) > 0.7`; any other outcome throws
`"Failed to validate email: ..."` (modelled as `Except.error`). -/
def validateEmail (o : ApiOutcome) : Except String EmailCheck :=
  match o with
  | .err m => .error ("Failed to validate email: " ++ m)
  | .ok none => .error ("Failed to validate email: " ++ "Invalid API response format")
  | .ok (some data) =>
    match data.deliverability, data.quality_score with
    | some del, some q =>
      let isValid := del == "DELIVERABLE" && scoreAbove q
      .ok { isValid := isValid
            message :=
              if isValid then "Email validated"
              else "Email " ++ jsLower del ++ " (Quality: " ++ q ++ ")" }
    | some _, none => .error ("Failed to validate email: " ++ "Invalid API response format")
    | none, _ => .error ("Failed to validate email: " ++ "Invalid API response format")

lemma scoreAbove_iff (q : String) :
    scoreAbove q = true ↔ ∃ v, jsParseFloat q = some v ∧ (7 : ℚ) / 10 < v := by
  unfold scoreAbove
  cases h : jsParseFloat q <;> simp [h]

/-- Claim C5: on every well-formed service response, `validateEmail`
classifies VALID exactly when the reported deliverability is
`"DELIVERABLE"` and the parsed quality score is strictly greater than
`0.7`; every other well-formed response is classified INVALID with a
message carrying the service's own classification and score. -/
theorem C5_checkEmail_classification :
    ∀ (del q : String), ∃ r,
      validateEmail (.ok (some ⟨some del, some q⟩)) = .ok r ∧
      (r.isValid = true ↔ del = "DELIVERABLE" ∧ ∃ v, jsParseFloat q = some v ∧ (7 : ℚ) / 10 < v) ∧
      (r.isValid = false →
        r.message = "Email " ++ jsLower del ++ " (Quality: " ++ q ++ ")") ∧
      (r.isValid = true → r.message = "Email validated") := by
  intro del q
  refine ⟨_, rfl, ?_, ?_, ?_⟩
  · simp only [Bool.and_eq_true, beq_iff_eq, scoreAbove_iff]
  · intro h
    have h' : (del == "DELIVERABLE" && scoreAbove q) = false := h
    simp [h']
  · intro h
    have h' : (del == "DELIVERABLE" && scoreAbove q) = true := h
    simp [h']

/-- Concrete instance of `C5_checkEmail_classification`: a well-formed
response reporting `UNDELIVERABLE` with score `0.95` is classified INVALID
and the message carries the classification and the score. -/
theorem C5_checkEmail_witness :
    ∃ r, validateEmail (.ok (some ⟨some "UNDELIVERABLE", some "0.95"⟩)) = .ok r ∧
      r.isValid = false ∧
      r.message = "Email " ++ jsLower "UNDELIVERABLE" ++ " (Quality: " ++ "0.95" ++ ")" := by
  obtain ⟨r, h1, h2, h3, _⟩ := C5_checkEmail_classification "UNDELIVERABLE" "0.95"
  have hf : r.isValid = false := by
    rcases Bool.eq_false_or_eq_true r.isValid with h | h
    · obtain ⟨hd, _⟩ := h2.mp h
      exact absurd hd (by decide)
    · exact h
  exact ⟨r, h1, hf, h3 hf⟩

/-- The user record (`src/unnamed/part_000`): `dob` and `createdAt` are
`Date` values modelled at day granularity; `validationStatus` is the
nullable string of the schema (`none` = the schema default `null`). -/
structure UserRecord where
  name : String
  email : String
  dob : CivilDate
  contact : String
  state : String
  country : String
  createdAt : CivilDate
  validationStatus : Option String
deriving Repr, DecidableEq

/-- The email shape `/^[^\s@]+@[^\s@]+\.[^\s@]+$/` of the schema
(`src/unnamed/part_000` lines 17-20): exactly one `@`, no whitespace, a
nonempty local part, and a dot inside the domain that is neither its first
nor its last character. The `isEmail` check of the request validators is
modelled by the same shape (the spec: "matches a simple local@domain.tld
shape"); no claim depends on the difference. -/
def isEmailShape (s : String) : Bool :=
  match splitOnChar '@' s.data with
  | [l, dom] =>
    !l.isEmpty && s.data.all (fun c => !c.isWhitespace) &&
      ((dom.drop 1).dropLast.contains '.')
  | _ => false

/-- `/^[0-9]{10}$/` — exactly ten ASCII digits. -/
def isTenDigits (s : String) : Bool :=
  s.data.length == 10 && s.data.all Char.isDigit

/-- Model of the `isDate` request validator plus date parsing: a dashed
`YYYY-MM-DD` string denoting an actual calendar date (the shape the HTML
date inputs submit). `none` models a failed `isDate` check. -/
def parseDate (s : String) : Option CivilDate :=
  match splitOnChar '-' s.data with
  | [ys, ms, ds] =>
    match parseNatList ys, parseNatList ms, parseNatList ds with
    | some y, some m, some d =>
      if validDate ⟨(y : Int), (m : Int), (d : Int)⟩ then some ⟨(y : Int), (m : Int), (d : Int)⟩
      else none
    | _, _, _ => none
  | _ => none

/-- The raw body fields of a submitted form. -/
structure Fields where
  name : String
  email : String
  dob : String
  contact : String
  state : String
  country : String
deriving Repr, DecidableEq

/-- The request-validator chain shared by `POST /submit`, `POST /api/users`
and `POST /update/:id` (`src/app.js` lines 264-270, 172-179, 393-400):
every failing check contributes its message, in declaration order. -/
def validateFields (f : Fields) : List String :=
  (if (trimList f.name.data).isEmpty then ["Name is required"] else []) ++
  (if !isEmailShape f.email then ["Invalid email address"] else []) ++
  (if (parseDate f.dob).isNone then ["Invalid date of birth"] else []) ++
  (if !isTenDigits f.contact then ["Contact must be a valid 10-digit number"] else []) ++
  (if (trimList f.state.data).isEmpty then ["State is required"] else []) ++
  (if (trimList f.country.data).isEmpty then ["Country is required"] else [])

/-- `errors.array().map(e => e.msg).join(", ")`. -/
def joinErrors (l : List String) : String :=
  match l with
  | [] => ""
  | h :: t => t.foldl (fun a s => a ++ ", " ++ s) h

/-- The schema-level validators of `src/unnamed/part_000`: length bounds on
`name`/`state`/`country`, the email shape, the contact pattern, and the
`dob` range check `minDate ≤ dob ≤ today` where `minDate` is the same
calendar date 120 years before today. Mongoose runs these on `save`. -/
def schemaValid (today : CivilDate) (u : UserRecord) : Bool :=
  let len := fun (s : String) => 2 ≤ s.length && s.length ≤ 50
  len u.name && isEmailShape u.email &&
    decide (civilToDays ⟨today.y - 120, today.m, today.d⟩ ≤ civilToDays u.dob) &&
    decide (civilToDays u.dob ≤ civilToDays today) &&
    isTenDigits u.contact && len u.state && len u.country

/-- Mongoose schema setters applied on `save` (`trim` on `name`, `state`,
`country`; `trim` + `lowercase` on `email`). -/
def applySetters (u : UserRecord) : UserRecord :=
  { u with
    name := jsTrim u.name
    email := jsLower (jsTrim u.email)
    state := jsTrim u.state
    country := jsTrim u.country }

/-- `new User({...}).save()`: apply the schema setters, reject a duplicate
(lowercased) email via the unique index (the post-save hook rewrites the
duplicate-key error to "Email already exists"), reject a record failing the
schema validators, otherwise append the record to the store. -/
def saveUser (today : CivilDate) (store : List UserRecord) (u : UserRecord) :
    Except String (List UserRecord) :=
  let u' := applySetters u
  if store.any (fun r => r.email == u'.email) then .error "Email already exists"
  else if !schemaValid today u' then .error "User validation failed"
  else .ok (store ++ [u'])

/-- The context of the rendered `index` view
(`res.render("index", {error, success, validationMessage})`). -/
structure IndexRender where
  error : Option String
  success : Option String
  validationMessage : Option String
deriving Repr, DecidableEq

/-- The record built by `new User({name, email, dob, contact, state,
country, validationStatus})`; `createdAt` takes its schema default (the
current date) and `vs` is the passed `validationStatus` (`none` when the
caller passes none, as `POST /api/users` does). -/
def mkRecord (f : Fields) (createdAt : CivilDate) (vs : Option String) : UserRecord :=
  { name := f.name
    email := f.email
    dob := (parseDate f.dob).getD ⟨1970, 1, 1⟩
    contact := f.contact
    state := f.state
    country := f.country
    createdAt := createdAt
    validationStatus := vs }

/-- The save-and-render tail of `POST /submit` (`src/app.js` lines
298-303): on a successful save render the success message, on a save error
render `Server error: ...`. -/
def saveAndRender (today : CivilDate) (store : List UserRecord) (f : Fields)
    (vm : Option String) : List UserRecord × IndexRender :=
  match saveUser today store (mkRecord f today vm) with
  | .ok store' => (store', ⟨none, some "Form submitted successfully!", vm⟩)
  | .error e => (store, ⟨some ("Server error: " ++ e), none, none⟩)

/-- `POST /submit` (`src/app.js` lines 262-305): field validation, then the
gateway check — an INVALID classification re-renders the form with the
gateway's message and skips the save; a thrown gateway error downgrades to
`validationMessage = "Validation unavailable"` and the save proceeds. -/
def postSubmit (today : CivilDate) (store : List UserRecord) (f : Fields)
    (api : ApiOutcome) : List UserRecord × IndexRender :=
  if validateFields f ≠ [] then
    (store, ⟨some (joinErrors (validateFields f)), none, none⟩)
  else
    match validateEmail api with
    | .ok r =>
      if !r.isValid then (store, ⟨some r.message, none, none⟩)
      else saveAndRender today store f (some r.message)
    | .error _ => saveAndRender today store f (some "Validation unavailable")

/-- A well-formed submission used as a test fixture. -/
def fAlice : Fields :=
  ⟨"Alice", "alice@example.com", "2000-01-02", "0123456789", "Goa", "India"⟩

/-- A stored record holding the same email as `fAlice`. -/
def uBob : UserRecord :=
  ⟨"Bob", "alice@example.com", ⟨1999, 1, 1⟩, "0123456789", "Goa", "India", ⟨2020, 1, 1⟩, none⟩

/-- Claim C1, counterexample: a submission that passes field validation but
whose (lowercased) email is already persisted, taken while the gateway
call fails, is NOT persisted — the unique-email index rejects the save and
the form re-renders with `Server error: Email already exists` instead of a
success message. -/
theorem C1_counterexample :
    validateFields fAlice = [] ∧
      postSubmit ⟨2026, 1, 1⟩ [uBob] fAlice (.err "network error") =
        ([uBob], ⟨some ("Server error: " ++ "Email already exists"), none, none⟩) := by
  refine ⟨by decide, by decide⟩

/-- Claim C1 (amended): for every `POST /submit` submission that passes
field validation: (a) if the gateway call fails (transport failure,
malformed response shape, or any exception) and the store accepts the
write — no already-persisted record carries the same normalized (trimmed,
lowercased) email and the normalized record passes the schema validators —
then the record is persisted with `validationStatus = "Validation
unavailable"` and the success message is rendered; (b) if the gateway
classifies the email INVALID, no record is persisted and the gateway's
message is returned as the form error. -/
theorem C1_submit_gateway_outcomes :
    ∀ (today : CivilDate) (store : List UserRecord) (f : Fields) (api : ApiOutcome),
      validateFields f = [] →
      (∀ m, validateEmail api = .error m →
        (∀ r ∈ store,
          r.email ≠ (applySetters (mkRecord f today (some "Validation unavailable"))).email) →
        schemaValid today (applySetters (mkRecord f today (some "Validation unavailable"))) = true →
        postSubmit today store f api =
          (store ++ [applySetters (mkRecord f today (some "Validation unavailable"))],
            ⟨none, some "Form submitted successfully!", some "Validation unavailable"⟩) ∧
          (applySetters (mkRecord f today (some "Validation unavailable"))).validationStatus =
            some "Validation unavailable") ∧
      (∀ r, validateEmail api = .ok r → r.isValid = false →
        postSubmit today store f api = (store, ⟨some r.message, none, none⟩)) := by
  intro today store f api hv
  constructor
  · intro m hapi hnodup hschema
    have hany : (store.any fun r =>
        r.email == (applySetters (mkRecord f today (some "Validation unavailable"))).email) =
          false := by
      rw [List.any_eq_false]
      intro r hr
      simpa using hnodup r hr
    refine ⟨?_, rfl⟩
    simp only [postSubmit, hv, ne_eq, not_true_eq_false, if_false, hapi, saveAndRender,
      saveUser, hany, hschema, Bool.not_true, Bool.false_eq_true, if_false, ite_false]
  · intro r hapi hinv
    simp only [postSubmit, hv, ne_eq, not_true_eq_false, if_false, hapi, hinv,
      Bool.not_false, if_true]

/-- Concrete instance of `C1_submit_gateway_outcomes`: submitting `fAlice`
into an empty store while the gateway transport fails persists the record
with `validationStatus = "Validation unavailable"` and renders success. -/
theorem C1_submit_witness :
    postSubmit ⟨2026, 1, 1⟩ [] fAlice (.err "boom") =
      ([applySetters (mkRecord fAlice ⟨2026, 1, 1⟩ (some "Validation unavailable"))],
        ⟨none, some "Form submitted successfully!", some "Validation unavailable"⟩) :=
  (((C1_submit_gateway_outcomes ⟨2026, 1, 1⟩ [] fAlice (.err "boom") (by decide)).1
    _ rfl (by simp) (by decide)).1)

/-- Per-session state: the admin flag and the failed-attempt counter.
The middleware at `src/app.js` lines 566-569 initializes `attempts` to 0
before the `/admin` routes run, so the counter is total here. -/
structure Session where
  isAdmin : Bool
  attempts : Nat
deriving Repr, DecidableEq

/-- The three responses of `POST /admin`: the lockout render, the redirect
to `/dashboard`, and the invalid-credentials render carrying the
`3 - attempts` count interpolated into its message. -/
inductive AdminResp where
  | lockout
  | redirectDashboard
  | invalidCreds (remaining : Int)
deriving Repr, DecidableEq

/-- `POST /admin` (`src/app.js` lines 575-590): lockout at
`attempts >= 3` before any credential comparison; exact match against the
configured secrets sets `isAdmin`, resets the counter and redirects;
a mismatch increments the counter and renders the remaining count. -/
def postAdmin (adminUser adminPass : String) (s : Session)
    (username password : String) : Session × AdminResp :=
  if 3 ≤ s.attempts then (s, .lockout)
  else if username == adminUser && password == adminPass then
    ({ isAdmin := true, attempts := 0 }, .redirectDashboard)
  else
    ({ s with attempts := s.attempts + 1 }, .invalidCreds (3 - ((s.attempts : Int) + 1)))

/-- Claim C3: with `attempts ≥ 3` every `POST /admin` is rejected with the
lockout message, leaving the session (both `isAdmin` and `attempts`)
untouched, whatever the credentials; with `attempts < 3` an exact match
sets `isAdmin`, resets `attempts` to 0 and redirects to the dashboard,
while a mismatch increments `attempts` and renders `3 - attempts`
remaining (computed after the increment, as the code does). -/
theorem C3_admin_login :
    ∀ (aU aP : String) (s : Session) (u p : String),
      (3 ≤ s.attempts → postAdmin aU aP s u p = (s, .lockout)) ∧
      (s.attempts < 3 → u = aU → p = aP →
        postAdmin aU aP s u p = ({ isAdmin := true, attempts := 0 }, .redirectDashboard)) ∧
      (s.attempts < 3 → ¬(u = aU ∧ p = aP) →
        postAdmin aU aP s u p =
          ({ s with attempts := s.attempts + 1 },
            .invalidCreds (3 - ((s.attempts : Int) + 1)))) := by
  intro aU aP s u p
  refine ⟨?_, ?_, ?_⟩
  · intro h
    unfold postAdmin
    rw [if_pos h]
  · intro h hu hp
    unfold postAdmin
    rw [if_neg (by omega), if_pos (by simp [hu, hp])]
  · intro h hne
    unfold postAdmin
    rw [if_neg (by omega), if_neg]
    intro hc
    rw [Bool.and_eq_true, beq_iff_eq, beq_iff_eq] at hc
    exact hne hc

/-- Concrete instances of `C3_admin_login`: a locked session rejects even
the correct credentials unchanged, and a fresh session accepts them. -/
theorem C3_admin_login_witness :
    postAdmin "admin" "admin123" ⟨false, 3⟩ "admin" "admin123" = (⟨false, 3⟩, .lockout) ∧
      postAdmin "admin" "admin123" ⟨false, 0⟩ "admin" "admin123" =
        (⟨true, 0⟩, .redirectDashboard) :=
  ⟨(C3_admin_login "admin" "admin123" ⟨false, 3⟩ "admin" "admin123").1 (by decide),
    (C3_admin_login "admin" "admin123" ⟨false, 0⟩ "admin" "admin123").2.1 (by decide) rfl rfl⟩

/-- A guarded route's response: either the redirect the guard issues or
the protected handler's rendered body. -/
inductive GuardResp (α : Type) where
  | redirect (loc : String)
  | page (body : α)
deriving DecidableEq

/-- The `ensureAdmin` middleware (`src/app.js` lines 70-79) composed with
an arbitrary protected handler: only an admin session reaches the
handler; otherwise the response is an immediate redirect to `/admin`. -/
def ensureAdmin {α : Type} (s : Session) (store : List UserRecord)
    (handler : Session → List UserRecord → α) : GuardResp α :=
  if s.isAdmin then .page (handler s store) else .redirect "/admin"

/-- Claim C8: for every admin-guarded route, a session with `isAdmin`
false gets a redirect to `/admin`; the protected handler's content is
never the response, and the response is identical for any two store
states (no data can leak through it). -/
theorem C8_admin_guard :
    ∀ (α : Type) (s : Session) (store store' : List UserRecord)
      (handler : Session → List UserRecord → α),
      s.isAdmin = false →
      ensureAdmin s store handler = .redirect "/admin" ∧
      ensureAdmin s store handler = ensureAdmin s store' handler ∧
      ∀ body, ensureAdmin s store handler ≠ .page body := by
  intro α s store store' handler h
  unfold ensureAdmin
  rw [if_neg (by simp [h]), if_neg (by simp [h])]
  exact ⟨rfl, rfl, fun body hc => GuardResp.noConfusion hc⟩

/-- Concrete instance of `C8_admin_guard`: a non-admin session requesting
a route that would render the whole store is redirected to `/admin`. -/
theorem C8_admin_guard_witness :
    ensureAdmin ⟨false, 0⟩ [uBob] (fun _ st => st) = .redirect "/admin" :=
  (C8_admin_guard (List UserRecord) ⟨false, 0⟩ [uBob] [] (fun _ st => st) rfl).1

/-- `parseInt(q) || d` (`src/app.js` lines 125-126, 309): a missing or
non-numeric parameter (`NaN`, modelled `none`) and an explicit `0` (falsy)
both fall back to the default. -/
def intParam (q : Option Int) (d : Int) : Int :=
  match q with
  | none => d
  | some n => if n == 0 then d else n

/-- Whether `pat` occurs at the head of the second list. -/
def leadsWith [BEq α] : List α → List α → Bool
  | [], _ => true
  | _ :: _, [] => false
  | a :: as, b :: bs => a == b && leadsWith as bs

/-- Whether `pat` occurs as a contiguous segment of the second list. -/
def hasSegment [BEq α] (pat : List α) : List α → Bool
  | [] => pat.isEmpty
  | c :: t => leadsWith pat (c :: t) || hasSegment pat t

/-- The `{name: {$regex: search, $options: "i"}}` filter, for a search
term without regex metacharacters: case-insensitive substring match on
`name` (the spec's "case-insensitive substring filter on name"). -/
def nameMatches (search : String) (u : UserRecord) : Bool :=
  hasSegment (jsLower search).data (jsLower u.name).data

/-- The records the list query ranges over: all of them, or, when a
nonempty trimmed search term is present, those whose name matches. -/
def filteredBy (store : List UserRecord) (search : Option String) : List UserRecord :=
  let s := match search with | some s => jsTrim s | none => ""
  if s.data.isEmpty then store else store.filter (nameMatches s)

/-- `Math.ceil(total / limit)` for a positive `limit`. -/
def ceilDiv (total limit : Nat) : Nat :=
  (total + limit - 1) / limit

/-- The JSON body of `GET /api/users`. -/
structure ApiUsersPage where
  users : List UserRecord
  page : Int
  totalPages : Nat
  totalUsers : Nat
deriving Repr, DecidableEq

/-- `GET /api/users` (`src/app.js` lines 124-156) after query parsing:
`skip = (page-1)*limit` records are skipped, at most `limit` are returned,
`totalPages = ceil(total/limit)` over the filtered total. The model covers
`page ≥ 1` and `limit ≥ 1` (the parsed values can never be 0; negative
values make the store throw and are out of scope). -/
def apiUsers (store : List UserRecord) (search : Option String)
    (page limit : Int) : ApiUsersPage :=
  let flt := filteredBy store search
  { users := (flt.drop ((page - 1) * limit).toNat).take limit.toNat
    page := page
    totalPages := ceilDiv flt.length limit.toNat
    totalUsers := flt.length }

/-- The context of the rendered `users` view. -/
structure UsersViewPage where
  users : List UserRecord
  page : Int
  totalPages : Nat
deriving Repr, DecidableEq

/-- `GET /users` (`src/app.js` lines 307-328): the rendered list view,
identical pagination with the page size fixed at 10 and no filter. -/
def usersView (store : List UserRecord) (page : Int) : UsersViewPage :=
  { users := (store.drop ((page - 1) * 10).toNat).take 10
    page := page
    totalPages := ceilDiv store.length 10 }

/-- Claim C6: with exactly 25 records, `GET /api/users?page=2&limit=10`
returns exactly 10 records and `totalPages = 3`; in general the JSON list
skips `(page-1)*limit` records, returns at most `limit` records, defaults
`limit` to 50 when the query omits it, reports
`totalPages = ceil(total/limit)`, and the rendered `/users` view serves at
most 10 records per page. -/
theorem C6_pagination :
    (∀ store : List UserRecord, store.length = 25 →
      (apiUsers store none 2 10).users.length = 10 ∧
        (apiUsers store none 2 10).totalPages = 3) ∧
    (∀ (store : List UserRecord) (search : Option String) (page limit : Int),
      1 ≤ page → 1 ≤ limit →
      (apiUsers store search page limit).users.length ≤ limit.toNat ∧
      (∀ i : Nat, i < limit.toNat →
        (apiUsers store search page limit).users[i]? =
          (filteredBy store search)[((page - 1) * limit).toNat + i]?) ∧
      (apiUsers store search page limit).totalPages =
        ceilDiv (filteredBy store search).length limit.toNat) ∧
    intParam none 50 = 50 ∧
    (∀ (store : List UserRecord) (page : Int),
      (usersView store page).users.length ≤ 10) := by
  refine ⟨?_, ?_, rfl, ?_⟩
  · intro store h25
    have hf : filteredBy store none = store := rfl
    constructor
    · simp only [apiUsers, hf, List.length_take, List.length_drop, h25]
      rfl
    · simp only [apiUsers, hf, h25]
      rfl
  · intro store search page limit hp hl
    refine ⟨?_, ?_, rfl⟩
    · simp only [apiUsers, List.length_take]
      exact Nat.min_le_left _ _
    · intro i hi
      simp only [apiUsers]
      rw [List.getElem?_take_of_lt hi, List.getElem?_drop]
  · intro store page
    simp only [usersView, List.length_take]
    exact Nat.min_le_left _ _

/-- Concrete instance of `C6_pagination`: page 2 with limit 10 of a
25-record store returns records 11-20 and reports 3 pages. -/
theorem C6_pagination_witness :
    (apiUsers (List.replicate 25 uBob) none 2 10).users.length = 10 ∧
      (apiUsers (List.replicate 25 uBob) none 2 10).totalPages = 3 :=
  C6_pagination.1 (List.replicate 25 uBob) (by simp)

/-- The optional body fields of `PUT /api/users/:id`; `dob` is carried
already parsed (its `isDate` validator guarantees the handler's
`new Date(dob)` succeeds). -/
structure UpdBody where
  name : Option String
  email : Option String
  dob : Option CivilDate
  contact : Option String
  state : Option String
  country : Option String
deriving Repr, DecidableEq

/-- JavaScript truthiness of an optional string body field
(`if (name) updateData.name = name`): present and nonempty. -/
def present (o : Option String) : Option String :=
  match o with
  | some s => if s.data.isEmpty then none else some s
  | none => none

/-- `PUT /api/users/:id` (`src/app.js` lines 197-230) applied to the found
record: `updateData` holds exactly the truthy body fields, and
`findByIdAndUpdate` rewrites those paths (running the schema setters,
hence the trims and the lowercased email) and nothing else. No gateway
outcome is an input of this function: the JSON update path never calls
`validateEmail` and never touches `validationStatus`. -/
def applyApiUpdate (u : UserRecord) (b : UpdBody) : UserRecord :=
  { u with
    name := match present b.name with | some v => jsTrim v | none => u.name
    email := match present b.email with | some v => jsLower (jsTrim v) | none => u.email
    dob := match b.dob with | some v => v | none => u.dob
    contact := match present b.contact with | some v => v | none => u.contact
    state := match present b.state with | some v => jsTrim v | none => u.state
    country := match present b.country with | some v => jsTrim v | none => u.country }

/-- The decision `POST /update/:id` reaches before its store write: either
an error render of the edit view, or the full update payload it hands to
`findByIdAndUpdate`. -/
inductive UpdateStep where
  | editError (msg : String)
  | update (data : UserRecord)
deriving Repr, DecidableEq

/-- `POST /update/:id` (`src/app.js` lines 390-450) up to the store write:
field validation, then the gateway re-check — an INVALID classification
re-renders the edit view with the gateway's message and no write happens;
otherwise the full update payload carries `validationStatus` rewritten to
the gateway's message, or to `"Validation unavailable"` when the gateway
threw. `createdAt` is not among the written fields. -/
def postUpdate (u : UserRecord) (f : Fields) (api : ApiOutcome) : UpdateStep :=
  if validateFields f ≠ [] then .editError (joinErrors (validateFields f))
  else
    match validateEmail api with
    | .ok r =>
      if !r.isValid then .editError r.message
      else .update (applySetters (mkRecord f u.createdAt (some r.message)))
    | .error _ =>
      .update (applySetters (mkRecord f u.createdAt (some "Validation unavailable")))

/-- Claim C9: a successful `PUT /api/users/:id` changes only the truthy
body fields among name/email/dob/contact/state/country and leaves
`validationStatus` (and `createdAt`) unchanged, with no gateway call
(`applyApiUpdate` takes no gateway outcome at all); the rendered
`POST /update/:id` re-runs the gateway check — INVALID blocks the update
with the gateway's message, a gateway failure rewrites `validationStatus`
to `"Validation unavailable"`, and a VALID outcome rewrites it to the
gateway's message. -/
theorem C9_update_paths :
    (∀ (u : UserRecord) (b : UpdBody),
      (applyApiUpdate u b).validationStatus = u.validationStatus ∧
      (applyApiUpdate u b).createdAt = u.createdAt ∧
      (present b.name = none → (applyApiUpdate u b).name = u.name) ∧
      (present b.email = none → (applyApiUpdate u b).email = u.email) ∧
      (b.dob = none → (applyApiUpdate u b).dob = u.dob) ∧
      (present b.contact = none → (applyApiUpdate u b).contact = u.contact) ∧
      (present b.state = none → (applyApiUpdate u b).state = u.state) ∧
      (present b.country = none → (applyApiUpdate u b).country = u.country)) ∧
    (∀ (u : UserRecord) (f : Fields) (api : ApiOutcome) (r : EmailCheck),
      validateFields f = [] → validateEmail api = .ok r → r.isValid = false →
      postUpdate u f api = .editError r.message) ∧
    (∀ (u : UserRecord) (f : Fields) (api : ApiOutcome) (m : String),
      validateFields f = [] → validateEmail api = .error m →
      postUpdate u f api =
        .update (applySetters (mkRecord f u.createdAt (some "Validation unavailable")))) ∧
    (∀ (u : UserRecord) (f : Fields) (api : ApiOutcome) (r : EmailCheck),
      validateFields f = [] → validateEmail api = .ok r → r.isValid = true →
      postUpdate u f api =
        .update (applySetters (mkRecord f u.createdAt (some r.message)))) := by
  refine ⟨?_, ?_, ?_, ?_⟩
  · intro u b
    refine ⟨rfl, rfl, ?_, ?_, ?_, ?_, ?_, ?_⟩ <;>
      (intro h; simp only [applyApiUpdate, h])
  · intro u f api r hv hapi hinv
    simp only [postUpdate, hv, ne_eq, not_true_eq_false, if_false, hapi, hinv,
      Bool.not_false, if_true]
  · intro u f api m hv hapi
    simp only [postUpdate, hv, ne_eq, not_true_eq_false, if_false, hapi]
  · intro u f api r hv hapi hval
    simp only [postUpdate, hv, ne_eq, not_true_eq_false, if_false, hapi, hval,
      Bool.not_true, Bool.false_eq_true, if_false]

/-- Concrete instance of `C9_update_paths`: a JSON update carrying only a
new name leaves `validationStatus` and `email` untouched, and a rendered
update under a failed gateway rewrites `validationStatus`. -/
theorem C9_update_paths_witness :
    (applyApiUpdate uBob ⟨some "Carol", none, none, none, none, none⟩).validationStatus =
        uBob.validationStatus ∧
      (applyApiUpdate uBob ⟨some "Carol", none, none, none, none, none⟩).email = uBob.email ∧
      postUpdate uBob fAlice (.err "down") =
        .update (applySetters (mkRecord fAlice uBob.createdAt (some "Validation unavailable"))) :=
  ⟨(C9_update_paths.1 uBob ⟨some "Carol", none, none, none, none, none⟩).1,
    (C9_update_paths.1 uBob ⟨some "Carol", none, none, none, none, none⟩).2.2.2.1 rfl,
    C9_update_paths.2.2.1 uBob fAlice (.err "down") _ (by decide) rfl⟩

/-- `POST /api/users` (`src/app.js` lines 169-195): field validation, then
`new User({name, email, dob, contact, state, country})` — no gateway call
and no `validationStatus` value supplied, so the schema default `null`
applies — then `save`. Errors become the JSON error responses. -/
def apiCreate (today : CivilDate) (store : List UserRecord) (f : Fields) :
    Except (List String) (List UserRecord) :=
  if validateFields f ≠ [] then .error (validateFields f)
  else
    match saveUser today store (mkRecord f today none) with
    | .ok store' => .ok store'
    | .error e => .error [e]

/-- Claim C10: every record persisted through `POST /api/users` carries
`validationStatus = none` (the schema default `null`): the path never
calls the gateway (`apiCreate` takes no gateway outcome) and never
supplies a `validationStatus`. -/
theorem C10_api_create_null_status :
    ∀ (today : CivilDate) (store : List UserRecord) (f : Fields)
      (store' : List UserRecord),
      apiCreate today store f = .ok store' →
      ∃ u, store' = store ++ [u] ∧ u.validationStatus = none := by
  intro today store f store' h
  unfold apiCreate at h
  split at h
  · exact Except.noConfusion h
  · rcases hs : saveUser today store (mkRecord f today none) with e | s <;> rw [hs] at h
    · exact Except.noConfusion h
    · simp only [saveUser] at hs
      split at hs
      · exact Except.noConfusion hs
      · split at hs
        · exact Except.noConfusion hs
        · exact ⟨applySetters (mkRecord f today none),
            by rw [← Except.ok.inj h, ← Except.ok.inj hs], rfl⟩

/-- Concrete instance of `C10_api_create_null_status`: creating `fAlice`
through the JSON API persists a record whose `validationStatus` is `none`. -/
theorem C10_api_create_witness :
    ∃ u, [applySetters (mkRecord fAlice ⟨2026, 1, 1⟩ none)] = [] ++ [u] ∧
      u.validationStatus = none :=
  C10_api_create_null_status ⟨2026, 1, 1⟩ [] fAlice
    [applySetters (mkRecord fAlice ⟨2026, 1, 1⟩ none)] rfl

/-- One `$group`-with-count step: bump the counter of key `k`, keeping
first-appearance order for new keys. -/
def bump [BEq α] : List (α × Nat) → α → List (α × Nat)
  | [], k => [(k, 1)]
  | (a, n) :: t, k => if a == k then (a, n + 1) :: t else (a, n) :: bump t k

/-- `$group: {_id: key, count: {$sum: 1}}` over a key list. -/
def groupCounts [BEq α] (l : List α) : List (α × Nat) :=
  l.foldl bump []

/-- Stable insertion for a descending-by-count sort (`$sort: {count: -1}`;
the order among equal counts is unspecified by the store, fixed here as
first-appearance order). -/
def insertDescByCount (x : α × Nat) : List (α × Nat) → List (α × Nat)
  | [] => [x]
  | h :: t => if h.2 < x.2 then x :: h :: t else h :: insertDescByCount x t

/-- Sort a counted grouping descending by count. -/
def sortDescByCount (l : List (α × Nat)) : List (α × Nat) :=
  l.foldr insertDescByCount []

/-- Stable insertion for the ascending-by-year sort (`$sort: {_id.year: 1}`). -/
def insertAscByYear (x : Int × Nat) : List (Int × Nat) → List (Int × Nat)
  | [] => [x]
  | h :: t => if x.1 ≤ h.1 then x :: h :: t else h :: insertAscByYear x t

/-- Sort a year grouping ascending by year. -/
def sortAscByYear (l : List (Int × Nat)) : List (Int × Nat) :=
  l.foldr insertAscByYear []

/-- Stable insertion for the `createdAt`-descending sort of `recentUsers`. -/
def insertDescByCreated (x : UserRecord) : List UserRecord → List UserRecord
  | [] => [x]
  | h :: t =>
    if civilToDays h.createdAt < civilToDays x.createdAt then x :: h :: t
    else h :: insertDescByCreated x t

/-- Sort records by `createdAt` descending. -/
def sortDescByCreated (l : List UserRecord) : List UserRecord :=
  l.foldr insertDescByCreated []

/-- The chart-ready context `GET /dashboard` renders; the series are kept
as key/count pair lists (the view splits them into `labels` and `data`). -/
structure Dashboard where
  totalUsers : Nat
  usersOverTime : List (Int × Nat)
  usersByCountry : List (String × Nat)
  ageDistribution : List (AgeBucket × Nat)
  topStates : List (String × Nat)
  recentUsers : List UserRecord
deriving Repr, DecidableEq

/-- `GET /dashboard` (`src/app.js` lines 462-564): every series starts
empty and the aggregations run only when at least one record exists.
`today`/`t` fix the moment (`new Date()`) of the age computation; the
`$bucket` stage emits only non-empty buckets, in boundary order with the
default bucket last; `topStates` stays empty when the most common country
is falsy (`usersByCountryAgg[0]?._id || null`). -/
def dashboard (today : CivilDate) (t : Int) (store : List UserRecord) : Dashboard :=
  let totalUsers := store.length
  if 0 < totalUsers then
    let usersByCountryAgg := sortDescByCount (groupCounts (store.map (fun u => u.country)))
    { totalUsers := totalUsers
      usersOverTime := sortAscByYear (groupCounts (store.map (fun u => u.createdAt.y)))
      usersByCountry := usersByCountryAgg
      ageDistribution :=
        (([.b0, .b18, .b30, .b45, .b60, .other] : List AgeBucket).map (fun b =>
          (b, (store.filter (fun u =>
            bucketOf (ageAtMs (msOfDate today + t) (msOfDate u.dob)) == b)).length))).filter
          (fun p => p.2 != 0)
      topStates :=
        match usersByCountryAgg with
        | [] => []
        | (c, _) :: _ =>
          if c.data.isEmpty then []
          else
            (sortDescByCount (groupCounts
              ((store.filter (fun u => u.country == c)).map (fun u => u.state)))).take 5
      recentUsers := (sortDescByCreated store).take 5 }
  else
    { totalUsers := 0
      usersOverTime := []
      usersByCountry := []
      ageDistribution := []
      topStates := []
      recentUsers := [] }

/-- Claim C7: with zero records the dashboard renders `totalUsers = 0` and
every series (`usersOverTime`, `usersByCountry`, `ageDistribution`,
`topStates`, `recentUsers`) empty; the render is total, so no error is
raised. -/
theorem C7_dashboard_empty :
    ∀ (today : CivilDate) (t : Int),
      dashboard today t [] = ⟨0, [], [], [], [], []⟩ := by
  intro today t
  rfl

/-- Express mount matching for `app.use(mountPath, middleware)`: the
middleware runs exactly when the request path equals the mount path or
extends it at a `/` boundary (`path-to-regexp` with `end: false`). -/
def mountApplies (mount path : String) : Bool :=
  path == mount || leadsWith (mount ++ "/").data path.data

/-- The rate limiter's configuration (`src/app.js` lines 41-44). -/
structure RateLimitConfig where
  windowMs : Nat
  maxReq : Nat
deriving Repr, DecidableEq

/-- `apiLimiter`: 100 requests per 15-minute window. -/
def apiLimiter : RateLimitConfig :=
  ⟨15 * 60 * 1000, 100⟩

/-- The mount path of `app.use("/api/validate", apiLimiter)`
(`src/app.js` line 45). -/
def apiLimiterMountPath : String :=
  "/api/validate"

/-- The path of the public validation endpoint (`src/app.js` line 111). -/
def validateEmailRoutePath : String :=
  "/api/validate-email"

/-- Claim C2: the code configures the 100-per-15-minutes limiter but
mounts it at `/api/validate`, which matches no route — in particular it
does NOT match `/api/validate-email` (the next character is `-`, not a
`/` boundary), so no request to the public validation endpoint is ever
rate-limited and every request beyond the 100th is still served. -/
theorem C2_rate_limiter_not_mounted :
    mountApplies apiLimiterMountPath validateEmailRoutePath = false ∧
      apiLimiter.windowMs = 15 * 60 * 1000 ∧ apiLimiter.maxReq = 100 := by
  refine ⟨by decide, rfl, rfl⟩

/-- Concrete instance of `C7_dashboard_empty` at a fixed moment. -/
theorem C7_dashboard_empty_witness :
    dashboard ⟨2026, 1, 1⟩ 0 [] = ⟨0, [], [], [], [], []⟩ :=
  C7_dashboard_empty ⟨2026, 1, 1⟩ 0
